import Mathlib

/-!
# logif: capability discovery for logger values

A shallow embedding of `vendor/github.com/shimt/go-logif/logif.go`.

* `LogLevel` and the constants of the `const ( ... )` block, with `iota`
  made explicit.
* `StringerFunc` and its `String` method, as a state transformer over an
  arbitrary program state `σ`.
* Go interface values (`Value σ`): `nil`, or a dynamic value with an
  identity, the method set of its dynamic type and the bodies of its two
  conversion methods.
* The type assertion `v.(I)` in its comma-ok form and the five discovery
  functions `ToGoLogger`, `ToGoLoggerModifier`, `ToLeveledLogger`,
  `ToLeveledLoggerModifier`, `ToLogger`.

Conversion methods and wrapped functions are caller code: they are modelled
as total state transformers `σ → result × σ`, so whatever they do to the
program state is visible in the state the discovery function returns.
-/

namespace Logif

/-! ## Log levels -/

/-- LogLevel is log message level (`type LogLevel int32`). The constants are
small, so the 32-bit range plays no part and the ordinals are integers. -/
abbrev LogLevel := Int

/-- The value of `iota` in the ConstSpec with the given index of a `const`
block: the first ConstSpec has index 0, and every ConstSpec advances it by
one. -/
def iota (specIndex : Nat) : LogLevel := (specIndex : Int)

/-- DEBUG debug log level: `DEBUG LogLevel = iota` (ConstSpec 0). -/
def DEBUG : LogLevel := iota 0
/-- MINLEVEL min log level: `MINLEVEL LogLevel = iota - 1` (ConstSpec 1). -/
def MINLEVEL : LogLevel := iota 1 - 1
/-- INFO info log level: `INFO LogLevel = iota` (ConstSpec 2). -/
def INFO : LogLevel := iota 2
/-- WARN warning log level: `WARN LogLevel = iota` (ConstSpec 3). -/
def WARN : LogLevel := iota 3
/-- ERROR error log level: `ERROR LogLevel = iota` (ConstSpec 4). -/
def ERROR : LogLevel := iota 4
/-- FATAL fatal log level: `FATAL LogLevel = iota` (ConstSpec 5). -/
def FATAL : LogLevel := iota 5
/-- PANIC panic log level: `PANIC LogLevel = iota` (ConstSpec 6). -/
def PANIC : LogLevel := iota 6
/-- MAXLEVEL max log level: `MAXLEVEL LogLevel = iota - 1` (ConstSpec 7). -/
def MAXLEVEL : LogLevel := iota 7 - 1

/-- The six named severities, in the order of their declaration. -/
def namedLevels : List LogLevel := [DEBUG, INFO, WARN, ERROR, FATAL, PANIC]

/-! ## StringerFunc -/

/-- StringerFunc Stringer interface function (`type StringerFunc func() string`).
A Go function of no arguments may read and write program state, so it is a
transformer of the state `σ` that also yields the string. -/
abbrev StringerFunc (σ : Type) := σ → String × σ

/-- String get print value: `return f()`. -/
def StringerFunc.String {σ : Type} (f : StringerFunc σ) : σ → String × σ :=
  fun s => f s

/-- The program fragment `r1 := x.String(); ...; rN := x.String()`: N calls
in sequence, each starting in the state the previous one left. The strings
returned are collected in call order. -/
def callStringN {σ : Type} (x : StringerFunc σ) : Nat → σ → List String × σ
  | 0, s => ([], s)
  | n + 1, s =>
    let (r, s1) := x.String s
    let (rs, s2) := callStringN x n s1
    (r :: rs, s2)

/-- A caller function that increments a counter each time it is invoked: the
body of `f` runs on the first component of the state, the counter is the
second component. -/
def counting {σ : Type} (f : StringerFunc σ) : StringerFunc (σ × Nat) :=
  fun sc => let (r, s1) := f sc.1; (r, (s1, sc.2 + 1))

/-- The reference run of a function `f` invoked N times in sequence, without
any wrapper: the values of the successive invocations and the final state. -/
def invokeN {σ : Type} (f : σ → String × σ) : Nat → σ → List String × σ
  | 0, s => ([], s)
  | n + 1, s =>
    let (r, s1) := f s
    let (rs, s2) := invokeN f n s1
    (r :: rs, s2)

/-! ## Method sets and interfaces -/

/-- The methods named by the interfaces of the package, each standing for
the method of that name with the signature the interface gives it. Any other
method of a dynamic type (another name, or one of these names with another
signature) is `other`. -/
inductive Method where
  | Print | Printf | Println
  | Fatal | Fatalf | Fatalln
  | Panic | Panicf | Panicln
  | ToGoLogger
  | SetFlags | Flags | SetPrefix | Prefix | SetOutput
  | Debug | Debugf | Debugln
  | Info | Infof | Infoln
  | Warn | Warnf | Warnln
  | Error | Errorf | Errorln
  | ToLeveledLogger
  | SetOutputLevel | OutputLevel
  | other (sig : String)
  deriving DecidableEq, Repr

/-- An interface type is the list of methods it requires. -/
abbrev Interface := List Method

/-- GoLogger minimum logging interface. -/
def GoLogger : Interface :=
  [.Print, .Printf, .Println, .Fatal, .Fatalf, .Fatalln, .Panic, .Panicf, .Panicln]

/-- GoLoggerCaster caster interface for GoLogger. -/
def GoLoggerCaster : Interface := [.ToGoLogger]

/-- GoLoggerModifier logging modifier interface. -/
def GoLoggerModifier : Interface :=
  [.SetFlags, .Flags, .SetPrefix, .Prefix, .SetOutput]

/-- LeveledLogger leveled logging interface. -/
def LeveledLogger : Interface :=
  [.Debug, .Debugf, .Debugln, .Info, .Infof, .Infoln,
   .Warn, .Warnf, .Warnln, .Error, .Errorf, .Errorln]

/-- LeveledLoggerCaster caster interface for LeveledLogger. -/
def LeveledLoggerCaster : Interface := [.ToLeveledLogger]

/-- LeveledLoggerModifier leveled logging modifier interface. -/
def LeveledLoggerModifier : Interface := [.SetOutputLevel, .OutputLevel]

/-- Logger logging interface: the embedded `GoLogger` and `LeveledLogger`. -/
def Logger : Interface := GoLogger ++ LeveledLogger

/-- The print family `Print`, `Printf`, `Println`. -/
def printFamily : List Method := [.Print, .Printf, .Println]

/-! ## Interface values -/

/-- A Go interface value (`interface{}` or any of the interfaces above; the
static type is erased). It is `nil`, or it holds a dynamic value:

* `id`: the identity of the dynamic value;
* `methods`: the method set of its dynamic type;
* `toGoLogger`: the body of its `ToGoLogger() GoLogger` method, which runs
  only if `Method.ToGoLogger` is in the method set;
* `toLeveledLogger`: likewise for `ToLeveledLogger() LeveledLogger`. -/
inductive Value (σ : Type) : Type where
  | nil : Value σ
  | obj (id : Nat) (methods : List Method)
      (toGoLogger : σ → Value σ × σ)
      (toLeveledLogger : σ → Value σ × σ) : Value σ

namespace Value

variable {σ : Type}

/-- The method set of the dynamic type; a nil interface value has none. -/
def methodSet : Value σ → List Method
  | nil => []
  | obj _ ms _ _ => ms

/-- Whether the interface value is nil. -/
def isNil : Value σ → Bool
  | nil => true
  | obj _ _ _ _ => false

/-- The method call `c.ToGoLogger()`. Go panics when the receiver is a nil
interface value; the discovery functions call it only on the result of a
successful assertion, which is never nil (`typeAssert_true`), and the
model leaves the state alone there. -/
def callToGoLogger : Value σ → σ → Value σ × σ
  | nil, s => (nil, s)
  | obj _ _ g _, s => g s

/-- The method call `c.ToLeveledLogger()`; see `callToGoLogger`. -/
def callToLeveledLogger : Value σ → σ → Value σ × σ
  | nil, s => (nil, s)
  | obj _ _ _ l, s => l s

end Value

/-- Whether the dynamic type of `v` implements the interface `I`: `v` holds
a dynamic value and every method of `I` is in its method set. -/
def implements {σ : Type} (v : Value σ) (I : Interface) : Bool :=
  !v.isNil && I.all (fun m => decide (m ∈ v.methodSet))

/-- The type assertion `x, ok = v.(I)` in its comma-ok form: if `v` holds a
dynamic value whose type implements `I`, the result is `v` and `true`;
otherwise it is the zero value of `I` (nil) and `false`, and there is no
run-time panic. -/
def typeAssert {σ : Type} (v : Value σ) (I : Interface) : Value σ × Bool :=
  if implements v I then (v, true) else (Value.nil, false)

/-! ## Discovery functions

Each returns the pair `(l, ok)` of the Go function together with the
program state after the call. -/

/-- ToGoLogger cast to GoLogger interface. -/
def ToGoLogger {σ : Type} (v : Value σ) (s : σ) : (Value σ × Bool) × σ :=
  match typeAssert v GoLoggerCaster with
  | (c, true) =>
    let (r, s1) := c.callToGoLogger s
    ((r, true), s1)
  | (_, false) => (typeAssert v GoLogger, s)

/-- ToGoLoggerModifier cast to GoLoggerModifier interface. -/
def ToGoLoggerModifier {σ : Type} (v : Value σ) (s : σ) : (Value σ × Bool) × σ :=
  (typeAssert v GoLoggerModifier, s)

/-- ToLeveledLogger cast to LeveledLogger interface. -/
def ToLeveledLogger {σ : Type} (v : Value σ) (s : σ) : (Value σ × Bool) × σ :=
  match typeAssert v LeveledLoggerCaster with
  | (c, true) =>
    let (r, s1) := c.callToLeveledLogger s
    ((r, true), s1)
  | (_, false) => (typeAssert v LeveledLogger, s)

/-- ToLeveledLoggerModifier cast to LeveledLoggerModifier interface. -/
def ToLeveledLoggerModifier {σ : Type} (v : Value σ) (s : σ) : (Value σ × Bool) × σ :=
  (typeAssert v LeveledLoggerModifier, s)

/-- ToLogger cast to Logger interface. -/
def ToLogger {σ : Type} (v : Value σ) (s : σ) : (Value σ × Bool) × σ :=
  (typeAssert v Logger, s)

/-! ## Example values

Concrete interface values over the state `Nat`, used to evaluate the
discovery functions. -/

/-- A method body that returns nil and leaves the state alone. -/
def noConversion : Nat → Value Nat × Nat := fun s => (Value.nil, s)

/-- A concrete logger: its method set is exactly that of `GoLogger`. -/
def innerLogger : Value Nat := .obj 2 GoLogger noConversion noConversion

/-- A concrete leveled logger: its method set is exactly that of
`LeveledLogger`. -/
def innerLeveled : Value Nat := .obj 5 LeveledLogger noConversion noConversion

/-- A wrapper whose only method is `ToGoLogger`, which hands out
`innerLogger` and counts the call in the state. -/
def goWrapper : Value Nat :=
  .obj 1 GoLoggerCaster (fun s => (innerLogger, s + 1)) noConversion

/-- A wrapper whose only method is `ToLeveledLogger`, which hands out
`innerLeveled` and counts the call in the state. -/
def leveledWrapper : Value Nat :=
  .obj 6 LeveledLoggerCaster noConversion (fun s => (innerLeveled, s + 1))

/-- A value that implements `Logger` directly and both casters as well; the
conversions hand out the inner loggers. -/
def casterAndLogger : Value Nat :=
  .obj 3 (.ToGoLogger :: .ToLeveledLogger :: Logger)
    (fun s => (innerLogger, s + 1)) (fun s => (innerLeveled, s + 1))

/-- A value that implements `Logger` directly and no caster. -/
def plainLogger : Value Nat := .obj 7 Logger noConversion noConversion

/-- A value whose method set is exactly the print family. -/
def printOnly : Value Nat := .obj 4 printFamily noConversion noConversion

/-- A value that implements both modifier interfaces and nothing else. -/
def modifierOnly : Value Nat :=
  .obj 8 (GoLoggerModifier ++ LeveledLoggerModifier) noConversion noConversion

/-- A caller function whose answer depends on how often it has run: the
state is the number of invocations so far. -/
def firstThenLater : StringerFunc Nat :=
  fun n => (if n = 0 then "first" else "later", n + 1)

/-- A caster whose `ToGoLogger` returns the nil interface value. -/
def nilCaster : Value Nat := .obj 9 GoLoggerCaster noConversion noConversion

/-- A caster whose `ToLeveledLogger` returns the nil interface value. -/
def nilLeveledCaster : Value Nat :=
  .obj 11 LeveledLoggerCaster noConversion noConversion

/-- A value whose only methods are the two conversions `ToGoLogger` and
`ToLeveledLogger`; they hand out the inner loggers. -/
def bothCastersOnly : Value Nat :=
  .obj 10 [.ToGoLogger, .ToLeveledLogger]
    (fun s => (innerLogger, s + 1)) (fun s => (innerLeveled, s + 1))

/-! ## Recording method invocations

The state of a run is the record of the method invocations made so far.
Every method invocation on a dynamic value enters the record: a conversion
through its body (`Recording`), any other method through `recordCall`. -/

/-- One method invocation: the identity of the receiver and the method. -/
abbrev Call := Nat × Method

/-- The record of the method invocations of a run, oldest first. -/
abbrev Trace := List Call

/-- The identity of the dynamic value; a nil interface value has none and
gets 0. -/
def Value.ident {σ : Type} : Value σ → Nat
  | .nil => 0
  | .obj i _ _ _ => i

/-- The methods of the logging and modifier interfaces: the Print, Fatal and
Panic families, the leveled families, and the two modifier interfaces. -/
def loggingAndModifierMethods : List Method :=
  GoLogger ++ LeveledLogger ++ GoLoggerModifier ++ LeveledLoggerModifier

/-- A value of the recording embedding: an invocation of one of its
conversions appends that call, and nothing else, to the record, and the
value the conversion returns is again a value of the recording embedding. -/
inductive Recording : Value Trace → Prop where
  | nil : Recording Value.nil
  | obj (i : Nat) (ms : List Method) (g l : Trace → Value Trace × Trace)
      (hg : ∀ t, (g t).2 = t ++ [(i, Method.ToGoLogger)])
      (hgr : ∀ t, Recording (g t).1)
      (hl : ∀ t, (l t).2 = t ++ [(i, Method.ToLeveledLogger)])
      (hlr : ∀ t, Recording (l t).1) :
      Recording (Value.obj i ms g l)

/-- The call of a method that has no body in `Value` (a logging or modifier
method) on `v`, in the recording embedding: the call enters the record. -/
def recordCall (v : Value Trace) (m : Method) (t : Trace) : Trace :=
  t ++ [(v.ident, m)]

/-- The dynamic value with the given identity and method set whose
conversions record their call and return the given values. -/
def recorded (i : Nat) (ms : List Method) (gRes lRes : Value Trace) : Value Trace :=
  .obj i ms (fun t => (gRes, t ++ [(i, Method.ToGoLogger)]))
    (fun t => (lRes, t ++ [(i, Method.ToLeveledLogger)]))

/-- A concrete logger of the recording embedding. -/
def recInner : Value Trace := recorded 2 GoLogger .nil .nil

/-- A logger of the recording embedding that is a caster as well: it has
the `GoLogger` methods and `ToGoLogger`, which hands out `recInner`. -/
def recMid : Value Trace := recorded 12 (.ToGoLogger :: GoLogger) recInner .nil

/-- A wrapper of the recording embedding whose only method is `ToGoLogger`,
which hands out `recMid`. -/
def recOuter : Value Trace := recorded 13 GoLoggerCaster recMid .nil

/-- The five discovery functions over the recording embedding. -/
def discoveryFunctions : List (Value Trace → Trace → (Value Trace × Bool) × Trace) :=
  [ToGoLogger, ToGoLoggerModifier, ToLeveledLogger, ToLeveledLoggerModifier, ToLogger]

/-! ## Basic facts about assertions -/

theorem implements_nil {σ : Type} (I : Interface) :
    implements (Value.nil : Value σ) I = false := by
  simp [implements, Value.isNil]

theorem implements_obj {σ : Type} (i : Nat) (ms : List Method)
    (g l : σ → Value σ × σ) (I : Interface) :
    implements (Value.obj i ms g l) I = true ↔ ∀ m ∈ I, m ∈ ms := by
  simp [implements, Value.isNil, Value.methodSet, List.all_eq_true]

theorem implements_iff {σ : Type} (v : Value σ) (I : Interface) :
    implements v I = true ↔ v.isNil = false ∧ ∀ m ∈ I, m ∈ v.methodSet := by
  cases v <;> simp [implements, Value.isNil, Value.methodSet, List.all_eq_true]

theorem typeAssert_of_implements {σ : Type} (v : Value σ) (I : Interface)
    (h : implements v I = true) : typeAssert v I = (v, true) := by
  simp [typeAssert, h]

theorem typeAssert_of_not_implements {σ : Type} (v : Value σ) (I : Interface)
    (h : implements v I = false) : typeAssert v I = (Value.nil, false) := by
  simp [typeAssert, h]

/-- A successful assertion yields the value itself, and that value is not
nil: the method call that follows it has a receiver. -/
theorem typeAssert_true {σ : Type} (v c : Value σ) (I : Interface)
    (h : typeAssert v I = (c, true)) : c = v ∧ v.isNil = false := by
  unfold typeAssert at h
  by_cases hi : implements v I = true
  · rw [if_pos hi] at h
    refine ⟨(Prod.mk.inj h).1.symm, ?_⟩
    exact ((implements_iff v I).1 hi).1
  · rw [if_neg hi] at h
    exact absurd (Prod.mk.inj h).2 (by decide)

theorem implements_Logger {σ : Type} (v : Value σ) :
    implements v Logger = true ↔
      implements v GoLogger = true ∧ implements v LeveledLogger = true := by
  cases v with
  | nil => simp [implements_nil]
  | obj i ms g l =>
    simp only [implements_obj, Logger, List.mem_append]
    constructor
    · intro h
      exact ⟨fun m hm => h m (Or.inl hm), fun m hm => h m (Or.inr hm)⟩
    · rintro ⟨h1, h2⟩ m (hm | hm)
      · exact h1 m hm
      · exact h2 m hm

theorem ToGoLogger_of_caster {σ : Type} (v : Value σ) (s : σ)
    (h : implements v GoLoggerCaster = true) :
    ToGoLogger v s = (((v.callToGoLogger s).1, true), (v.callToGoLogger s).2) := by
  simp [ToGoLogger, typeAssert, h]

theorem ToGoLogger_of_no_caster {σ : Type} (v : Value σ) (s : σ)
    (h : implements v GoLoggerCaster = false) :
    ToGoLogger v s = (typeAssert v GoLogger, s) := by
  simp [ToGoLogger, typeAssert, h]

theorem ToLeveledLogger_of_caster {σ : Type} (v : Value σ) (s : σ)
    (h : implements v LeveledLoggerCaster = true) :
    ToLeveledLogger v s =
      (((v.callToLeveledLogger s).1, true), (v.callToLeveledLogger s).2) := by
  simp [ToLeveledLogger, typeAssert, h]

theorem ToLeveledLogger_of_no_caster {σ : Type} (v : Value σ) (s : σ)
    (h : implements v LeveledLoggerCaster = false) :
    ToLeveledLogger v s = (typeAssert v LeveledLogger, s) := by
  simp [ToLeveledLogger, typeAssert, h]

theorem implements_of_subset {σ : Type} (v : Value σ) (I : Interface)
    (hn : v.isNil = false) (h : ∀ m ∈ I, m ∈ v.methodSet) :
    implements v I = true :=
  (implements_iff v I).2 ⟨hn, h⟩

theorem not_implements_of_missing {σ : Type} (v : Value σ) (I : Interface)
    (m : Method) (hm : m ∈ I) (h : m ∉ v.methodSet) :
    implements v I = false := by
  cases hi : implements v I with
  | false => rfl
  | true => exact absurd (((implements_iff v I).1 hi).2 m hm) h

theorem isNil_false_of_mem {σ : Type} (v : Value σ) (m : Method)
    (h : m ∈ v.methodSet) : v.isNil = false := by
  cases v with
  | nil => simp [Value.methodSet] at h
  | obj i ms g l => rfl

theorem typeAssert_flag {σ : Type} (v : Value σ) (I : Interface) :
    (typeAssert v I).2 = implements v I := by
  cases h : implements v I <;> simp [typeAssert, h]

/-- Two dynamic values whose method sets agree on the methods of `I`
implement `I` alike, whatever their identities and conversion bodies. -/
theorem implements_congr {σ : Type} (I : Interface) (i j : Nat)
    (ms ns : List Method) (g l g1 l1 : σ → Value σ × σ)
    (h : ∀ m ∈ I, (m ∈ ms ↔ m ∈ ns)) :
    implements (Value.obj i ms g l) I = implements (Value.obj j ns g1 l1) I := by
  rw [Bool.eq_iff_iff, implements_obj, implements_obj]
  exact ⟨fun a m hm => (h m hm).1 (a m hm), fun a m hm => (h m hm).2 (a m hm)⟩

theorem ToGoLogger_ok_iff {σ : Type} (v : Value σ) (s : σ) :
    (ToGoLogger v s).1.2 = true ↔
      implements v GoLoggerCaster = true ∨ implements v GoLogger = true := by
  cases hc : implements v GoLoggerCaster with
  | true => simp [ToGoLogger_of_caster v s hc]
  | false => simp [ToGoLogger_of_no_caster v s hc, typeAssert_flag]

theorem ToLeveledLogger_ok_iff {σ : Type} (v : Value σ) (s : σ) :
    (ToLeveledLogger v s).1.2 = true ↔
      implements v LeveledLoggerCaster = true ∨ implements v LeveledLogger = true := by
  cases hc : implements v LeveledLoggerCaster with
  | true => simp [ToLeveledLogger_of_caster v s hc]
  | false => simp [ToLeveledLogger_of_no_caster v s hc, typeAssert_flag]

theorem callStringN_eq_invokeN {σ : Type} (f : StringerFunc σ) (N : Nat) (s : σ) :
    callStringN f N s = invokeN f N s := by
  induction N generalizing s with
  | zero => rfl
  | succ n ih => simp only [callStringN, invokeN, StringerFunc.String, ih]

theorem invokeN_length {σ : Type} (f : σ → String × σ) (N : Nat) (s : σ) :
    (invokeN f N s).1.length = N := by
  induction N generalizing s with
  | zero => rfl
  | succ n ih => simp [invokeN, ih]

theorem invokeN_counting {σ : Type} (f : StringerFunc σ) (N : Nat) (s : σ) (c : Nat) :
    invokeN (counting f) N (s, c) =
      ((invokeN f N s).1, ((invokeN f N s).2, c + N)) := by
  induction N generalizing s c with
  | zero => rfl
  | succ n ih =>
    simp only [invokeN, counting, ih]
    refine Prod.ext rfl (Prod.ext rfl ?_)
    simp only
    omega

theorem invokeN_counter {σ : Type} (f : σ → String × σ) (ctr : σ → Nat)
    (h : ∀ s, ctr (f s).2 = ctr s + 1) (N : Nat) (s : σ) :
    ctr (invokeN f N s).2 = ctr s + N := by
  induction N generalizing s with
  | zero => rfl
  | succ n ih =>
    simp only [invokeN, ih, h]
    omega

/-- Whether a value implements an interface is a matter of its being nil or
not and of its method set alone. -/
theorem implements_of_same_methods {σ τ : Type} (v : Value σ) (w : Value τ)
    (I : Interface) (hn : v.isNil = w.isNil)
    (hm : ∀ m, m ∈ v.methodSet ↔ m ∈ w.methodSet) :
    implements v I = implements w I := by
  rw [Bool.eq_iff_iff, implements_iff, implements_iff, hn]
  exact ⟨fun a => ⟨a.1, fun m h => (hm m).1 (a.2 m h)⟩,
    fun a => ⟨a.1, fun m h => (hm m).2 (a.2 m h)⟩⟩

theorem typeAssert_view_of_ok {σ : Type} (v : Value σ) (I : Interface)
    (h : (typeAssert v I).2 = true) : (typeAssert v I).1 = v := by
  rw [typeAssert_flag] at h
  rw [typeAssert_of_implements v I h]

theorem recording_recorded (i : Nat) (ms : List Method) (gRes lRes : Value Trace)
    (hg : Recording gRes) (hl : Recording lRes) :
    Recording (recorded i ms gRes lRes) :=
  Recording.obj i ms _ _ (fun _ => rfl) (fun _ => hg) (fun _ => rfl) (fun _ => hl)

theorem recording_callToGoLogger (v : Value Trace) (t : Trace) (h : Recording v)
    (hc : implements v GoLoggerCaster = true) :
    (v.callToGoLogger t).2 = t ++ [(v.ident, Method.ToGoLogger)] := by
  cases h with
  | nil => simp [implements_nil] at hc
  | obj i ms g l hg hgr hl hlr => exact hg t

theorem recording_callToLeveledLogger (v : Value Trace) (t : Trace) (h : Recording v)
    (hc : implements v LeveledLoggerCaster = true) :
    (v.callToLeveledLogger t).2 = t ++ [(v.ident, Method.ToLeveledLogger)] := by
  cases h with
  | nil => simp [implements_nil] at hc
  | obj i ms g l hg hgr hl hlr => exact hl t

/-! ## Caster precedence (C1) -/

/-- C1: caster precedence. For every value `v` and state `s`: if `v`
implements `GoLoggerCaster`, then `ToGoLogger v` returns the result of
`v.ToGoLogger()` with `ok = true`, in the state that conversion leaves; if
`v` implements `LeveledLoggerCaster`, then `ToLeveledLogger v` returns the
result of `v.ToLeveledLogger()` with `ok = true`. Nothing is assumed about
whether `v` implements `GoLogger` or `LeveledLogger` directly, so the view is
the conversion result also when it does, and it differs from `v` whenever
the conversion result does. -/
theorem caster_precedence {σ : Type} (v : Value σ) (s : σ) :
    (implements v GoLoggerCaster = true →
      ToGoLogger v s = (((v.callToGoLogger s).1, true), (v.callToGoLogger s).2) ∧
      ((v.callToGoLogger s).1 ≠ v → (ToGoLogger v s).1.1 ≠ v)) ∧
    (implements v LeveledLoggerCaster = true →
      ToLeveledLogger v s =
        (((v.callToLeveledLogger s).1, true), (v.callToLeveledLogger s).2) ∧
      ((v.callToLeveledLogger s).1 ≠ v → (ToLeveledLogger v s).1.1 ≠ v)) := by
  constructor
  · intro h
    have e := ToGoLogger_of_caster v s h
    refine ⟨e, fun hne => ?_⟩
    rw [e]
    exact hne
  · intro h
    have e := ToLeveledLogger_of_caster v s h
    refine ⟨e, fun hne => ?_⟩
    rw [e]
    exact hne

/-- C1 at concrete values: `casterAndLogger` implements both casters and
also `GoLogger` and `LeveledLogger` directly; discovery returns the inner
loggers its conversions hand out, not `casterAndLogger`, and the state shows
the one conversion call. The wrapper that has only `ToGoLogger` yields
`innerLogger` as well. -/
theorem caster_precedence_witness :
    implements casterAndLogger GoLoggerCaster = true ∧
    implements casterAndLogger GoLogger = true ∧
    implements casterAndLogger LeveledLoggerCaster = true ∧
    implements casterAndLogger LeveledLogger = true ∧
    ToGoLogger casterAndLogger 0 = ((innerLogger, true), 1) ∧
    (ToGoLogger casterAndLogger 0).1.1 ≠ casterAndLogger ∧
    ToLeveledLogger casterAndLogger 0 = ((innerLeveled, true), 1) ∧
    (ToLeveledLogger casterAndLogger 0).1.1 ≠ casterAndLogger ∧
    ToGoLogger goWrapper 0 = ((innerLogger, true), 1) := by
  have hne1 : (casterAndLogger.callToGoLogger 0).1 ≠ casterAndLogger := by
    intro h
    have := congrArg Value.methodSet h
    revert this
    decide
  have hne2 : (casterAndLogger.callToLeveledLogger 0).1 ≠ casterAndLogger := by
    intro h
    have := congrArg Value.methodSet h
    revert this
    decide
  refine ⟨by decide, by decide, by decide, by decide, ?_, ?_, ?_, ?_, ?_⟩
  · exact ((caster_precedence casterAndLogger 0).1 (by decide)).1
  · exact ((caster_precedence casterAndLogger 0).1 (by decide)).2 hne1
  · exact ((caster_precedence casterAndLogger 0).2 (by decide)).1
  · exact ((caster_precedence casterAndLogger 0).2 (by decide)).2 hne2
  · exact ((caster_precedence goWrapper 0).1 (by decide)).1

/-! ## Direct implementation and absence (C2, C3) -/

/-- C2: direct implementation without a caster. For each of the five
discovery functions, a value `v` that directly implements the target
interface, and (for `ToGoLogger` and `ToLeveledLogger`, the two that have a
caster) does not implement its caster, is returned itself with `ok = true`;
the program state is unchanged. -/
theorem direct_returns_self {σ : Type} (v : Value σ) (s : σ) :
    (implements v GoLogger = true → implements v GoLoggerCaster = false →
      ToGoLogger v s = ((v, true), s)) ∧
    (implements v GoLoggerModifier = true →
      ToGoLoggerModifier v s = ((v, true), s)) ∧
    (implements v LeveledLogger = true → implements v LeveledLoggerCaster = false →
      ToLeveledLogger v s = ((v, true), s)) ∧
    (implements v LeveledLoggerModifier = true →
      ToLeveledLoggerModifier v s = ((v, true), s)) ∧
    (implements v Logger = true → ToLogger v s = ((v, true), s)) := by
  refine ⟨fun h hc => ?_, fun h => ?_, fun h hc => ?_, fun h => ?_, fun h => ?_⟩
  · rw [ToGoLogger_of_no_caster v s hc, typeAssert_of_implements v _ h]
  · rw [ToGoLoggerModifier, typeAssert_of_implements v _ h]
  · rw [ToLeveledLogger_of_no_caster v s hc, typeAssert_of_implements v _ h]
  · rw [ToLeveledLoggerModifier, typeAssert_of_implements v _ h]
  · rw [ToLogger, typeAssert_of_implements v _ h]

/-- C2 at concrete values: a plain logger with no caster is returned itself
by `ToGoLogger`, `ToLeveledLogger` and `ToLogger`, and a value with the
modifier methods is returned itself by the two modifier functions. -/
theorem direct_returns_self_witness :
    ToGoLogger plainLogger 0 = ((plainLogger, true), 0) ∧
    ToGoLoggerModifier modifierOnly 0 = ((modifierOnly, true), 0) ∧
    ToLeveledLogger plainLogger 0 = ((plainLogger, true), 0) ∧
    ToLeveledLoggerModifier modifierOnly 0 = ((modifierOnly, true), 0) ∧
    ToLogger plainLogger 0 = ((plainLogger, true), 0) :=
  ⟨(direct_returns_self plainLogger 0).1 (by decide) (by decide),
   (direct_returns_self modifierOnly 0).2.1 (by decide),
   (direct_returns_self plainLogger 0).2.2.1 (by decide) (by decide),
   (direct_returns_self modifierOnly 0).2.2.2.1 (by decide),
   (direct_returns_self plainLogger 0).2.2.2.2 (by decide)⟩

/-- C3: absence of the capability. For each of the five discovery
functions, a value `v` that implements neither the target interface nor (for
`ToGoLogger` and `ToLeveledLogger`) its caster yields the nil view with
`ok = false`. The function returns normally, and the program state is
unchanged. Implementing the caster of another capability makes no
difference, since no hypothesis speaks of it. -/
theorem absent_returns_nil_false {σ : Type} (v : Value σ) (s : σ) :
    (implements v GoLogger = false → implements v GoLoggerCaster = false →
      ToGoLogger v s = ((Value.nil, false), s)) ∧
    (implements v GoLoggerModifier = false →
      ToGoLoggerModifier v s = ((Value.nil, false), s)) ∧
    (implements v LeveledLogger = false → implements v LeveledLoggerCaster = false →
      ToLeveledLogger v s = ((Value.nil, false), s)) ∧
    (implements v LeveledLoggerModifier = false →
      ToLeveledLoggerModifier v s = ((Value.nil, false), s)) ∧
    (implements v Logger = false → ToLogger v s = ((Value.nil, false), s)) := by
  refine ⟨fun h hc => ?_, fun h => ?_, fun h hc => ?_, fun h => ?_, fun h => ?_⟩
  · rw [ToGoLogger_of_no_caster v s hc, typeAssert_of_not_implements v _ h]
  · rw [ToGoLoggerModifier, typeAssert_of_not_implements v _ h]
  · rw [ToLeveledLogger_of_no_caster v s hc, typeAssert_of_not_implements v _ h]
  · rw [ToLeveledLoggerModifier, typeAssert_of_not_implements v _ h]
  · rw [ToLogger, typeAssert_of_not_implements v _ h]

/-- C3 at concrete values: the wrapper that has only `ToLeveledLogger` gets
nil and false from `ToGoLogger`, the wrapper that has only `ToGoLogger` gets
nil and false from `ToLeveledLogger`, from both modifier functions and from
`ToLogger`, and so does the nil interface value from `ToGoLogger`. -/
theorem absent_returns_nil_false_witness :
    implements leveledWrapper LeveledLoggerCaster = true ∧
    ToGoLogger leveledWrapper 0 = ((Value.nil, false), 0) ∧
    implements goWrapper GoLoggerCaster = true ∧
    ToGoLoggerModifier goWrapper 0 = ((Value.nil, false), 0) ∧
    ToLeveledLogger goWrapper 0 = ((Value.nil, false), 0) ∧
    ToLeveledLoggerModifier goWrapper 0 = ((Value.nil, false), 0) ∧
    ToLogger goWrapper 0 = ((Value.nil, false), 0) ∧
    ToGoLogger (Value.nil : Value Nat) 0 = ((Value.nil, false), 0) :=
  ⟨by decide,
   (absent_returns_nil_false leveledWrapper 0).1 (by decide) (by decide),
   by decide,
   (absent_returns_nil_false goWrapper 0).2.1 (by decide),
   (absent_returns_nil_false goWrapper 0).2.2.1 (by decide) (by decide),
   (absent_returns_nil_false goWrapper 0).2.2.2.1 (by decide),
   (absent_returns_nil_false goWrapper 0).2.2.2.2 (by decide),
   (absent_returns_nil_false (Value.nil : Value Nat) 0).1 (by decide) (by decide)⟩

/-! ## Log level ordering (C4, C5) -/

/-- C4, as stated, fails: MINLEVEL is not below DEBUG and MAXLEVEL is not
above PANIC, and MINLEVEL is not one below DEBUG nor MAXLEVEL one above
PANIC. -/
theorem sentinels_not_strictly_outside :
    ¬ (MINLEVEL < DEBUG) ∧ ¬ (PANIC < MAXLEVEL) ∧
    MINLEVEL ≠ DEBUG - 1 ∧ MAXLEVEL ≠ PANIC + 1 := by
  simp [MINLEVEL, DEBUG, PANIC, MAXLEVEL, iota]

/-- C4, amended: each sentinel coincides with the extreme named severity,
MINLEVEL = DEBUG and MAXLEVEL = PANIC. -/
theorem sentinels_equal_extremes : MINLEVEL = DEBUG ∧ MAXLEVEL = PANIC := by
  simp [MINLEVEL, DEBUG, PANIC, MAXLEVEL, iota]

/-- C5: the six named severities are strictly increasing,
DEBUG < INFO < WARN < ERROR < FATAL < PANIC, hence pairwise distinct. -/
theorem named_levels_strictly_increasing :
    DEBUG < INFO ∧ INFO < WARN ∧ WARN < ERROR ∧ ERROR < FATAL ∧ FATAL < PANIC ∧
    List.Pairwise (fun a b => a < b) namedLevels ∧ namedLevels.Nodup := by
  simp [namedLevels, DEBUG, INFO, WARN, ERROR, FATAL, PANIC, iota]

/-! ## The print family (C6) -/

/-- C6, as stated, fails: the method set of `printOnly` is exactly the print
family, and it is not the case that `ToGoLogger` returns `ok = true` and
`ToLeveledLogger` returns `ok = false`; `ToGoLogger` returns nil and false. -/
theorem print_family_is_no_GoLogger :
    (∀ m, m ∈ printOnly.methodSet ↔ m ∈ printFamily) ∧
    ¬ ((ToGoLogger printOnly 0).1.2 = true ∧ (ToLeveledLogger printOnly 0).1.2 = false) ∧
    ToGoLogger printOnly 0 = ((Value.nil, false), 0) := by
  refine ⟨fun m => Iff.rfl, ?_, rfl⟩
  decide

/-- C6, amended: a value whose method set is exactly the nine methods of
`GoLogger` (the print, Fatal and Panic families; no leveled method, no
caster) is returned itself with `ok = true` by `ToGoLogger` and gets nil and
`ok = false` from `ToLeveledLogger`; a value whose method set is exactly the
print family gets nil and `ok = false` from both. -/
theorem GoLogger_family_only {σ : Type} (v : Value σ) (s : σ) :
    ((∀ m, m ∈ v.methodSet ↔ m ∈ GoLogger) →
      ToGoLogger v s = ((v, true), s) ∧
      ToLeveledLogger v s = ((Value.nil, false), s)) ∧
    ((∀ m, m ∈ v.methodSet ↔ m ∈ printFamily) →
      ToGoLogger v s = ((Value.nil, false), s) ∧
      ToLeveledLogger v s = ((Value.nil, false), s)) := by
  constructor
  · intro h
    have hn : v.isNil = false :=
      isNil_false_of_mem v .Print ((h .Print).2 (by decide))
    have h1 : implements v GoLogger = true :=
      implements_of_subset v _ hn (fun m hm => (h m).2 hm)
    have h2 : implements v GoLoggerCaster = false :=
      not_implements_of_missing v _ .ToGoLogger (by decide)
        (fun hm => absurd ((h _).1 hm) (by decide))
    have h3 : implements v LeveledLogger = false :=
      not_implements_of_missing v _ .Debug (by decide)
        (fun hm => absurd ((h _).1 hm) (by decide))
    have h4 : implements v LeveledLoggerCaster = false :=
      not_implements_of_missing v _ .ToLeveledLogger (by decide)
        (fun hm => absurd ((h _).1 hm) (by decide))
    exact ⟨(direct_returns_self v s).1 h1 h2,
      (absent_returns_nil_false v s).2.2.1 h3 h4⟩
  · intro h
    have h1 : implements v GoLogger = false :=
      not_implements_of_missing v _ .Fatal (by decide)
        (fun hm => absurd ((h _).1 hm) (by decide))
    have h2 : implements v GoLoggerCaster = false :=
      not_implements_of_missing v _ .ToGoLogger (by decide)
        (fun hm => absurd ((h _).1 hm) (by decide))
    have h3 : implements v LeveledLogger = false :=
      not_implements_of_missing v _ .Debug (by decide)
        (fun hm => absurd ((h _).1 hm) (by decide))
    have h4 : implements v LeveledLoggerCaster = false :=
      not_implements_of_missing v _ .ToLeveledLogger (by decide)
        (fun hm => absurd ((h _).1 hm) (by decide))
    exact ⟨(absent_returns_nil_false v s).1 h1 h2,
      (absent_returns_nil_false v s).2.2.1 h3 h4⟩

/-- C6, amended, at concrete values: `innerLogger` has exactly the nine
`GoLogger` methods and `printOnly` exactly the print family. -/
theorem GoLogger_family_only_witness :
    (∀ m, m ∈ innerLogger.methodSet ↔ m ∈ GoLogger) ∧
    (ToGoLogger innerLogger 0 = ((innerLogger, true), 0) ∧
      ToLeveledLogger innerLogger 0 = ((Value.nil, false), 0)) ∧
    (∀ m, m ∈ printOnly.methodSet ↔ m ∈ printFamily) ∧
    (ToGoLogger printOnly 0 = ((Value.nil, false), 0) ∧
      ToLeveledLogger printOnly 0 = ((Value.nil, false), 0)) :=
  ⟨fun _ => Iff.rfl,
   (GoLogger_family_only innerLogger 0).1 (fun _ => Iff.rfl),
   fun _ => Iff.rfl,
   (GoLogger_family_only printOnly 0).2 (fun _ => Iff.rfl)⟩

/-! ## Functions without a caster (C7) -/

/-- C7: `ToGoLoggerModifier`, `ToLeveledLoggerModifier` and `ToLogger` do
the direct check only. For every value and state, `ok` is true exactly when
the value directly implements the target interface (for `ToLogger`:
`GoLogger` together with `LeveledLogger`), and the program state is
unchanged, so no conversion has run. Two dynamic values whose method sets
agree on every method other than `ToGoLogger` and `ToLeveledLogger` get the
same `ok`, whatever their caster methods, conversion bodies, identities and
states. -/
theorem direct_check_only {σ : Type} :
    (∀ (v : Value σ) (s : σ),
      ((ToGoLoggerModifier v s).1.2 = true ↔ implements v GoLoggerModifier = true) ∧
      ((ToLeveledLoggerModifier v s).1.2 = true ↔
        implements v LeveledLoggerModifier = true) ∧
      ((ToLogger v s).1.2 = true ↔
        implements v GoLogger = true ∧ implements v LeveledLogger = true) ∧
      (ToGoLoggerModifier v s).2 = s ∧ (ToLeveledLoggerModifier v s).2 = s ∧
      (ToLogger v s).2 = s) ∧
    (∀ (i j : Nat) (ms ns : List Method) (g l g1 l1 : σ → Value σ × σ) (s t : σ),
      (∀ m, m ≠ Method.ToGoLogger → m ≠ Method.ToLeveledLogger → (m ∈ ms ↔ m ∈ ns)) →
      (ToGoLoggerModifier (Value.obj i ms g l) s).1.2 =
        (ToGoLoggerModifier (Value.obj j ns g1 l1) t).1.2 ∧
      (ToLeveledLoggerModifier (Value.obj i ms g l) s).1.2 =
        (ToLeveledLoggerModifier (Value.obj j ns g1 l1) t).1.2 ∧
      (ToLogger (Value.obj i ms g l) s).1.2 =
        (ToLogger (Value.obj j ns g1 l1) t).1.2) := by
  constructor
  · intro v s
    refine ⟨?_, ?_, ?_, rfl, rfl, rfl⟩
    · simp [ToGoLoggerModifier, typeAssert_flag]
    · simp [ToLeveledLoggerModifier, typeAssert_flag]
    · simp [ToLogger, typeAssert_flag, implements_Logger]
  · intro i j ms ns g l g1 l1 s t h
    simp only [ToGoLoggerModifier, ToLeveledLoggerModifier, ToLogger, typeAssert_flag]
    refine ⟨?_, ?_, ?_⟩
    · apply implements_congr
      intro m hm
      apply h m <;> (rintro rfl; revert hm; decide)
    · apply implements_congr
      intro m hm
      apply h m <;> (rintro rfl; revert hm; decide)
    · apply implements_congr
      intro m hm
      apply h m <;> (rintro rfl; revert hm; decide)

/-- C7 at concrete values: `plainLogger` and `casterAndLogger` differ in
their caster methods only and get the same `ok` from `ToLogger`, although
the states differ; the same holds for the modifier functions. `ToLogger`
succeeds on `plainLogger`, which implements `GoLogger` and `LeveledLogger`,
and leaves the state alone on `casterAndLogger`. -/
theorem direct_check_only_witness :
    ((ToGoLoggerModifier plainLogger 0).1.2 = (ToGoLoggerModifier casterAndLogger 5).1.2 ∧
      (ToLeveledLoggerModifier plainLogger 0).1.2 =
        (ToLeveledLoggerModifier casterAndLogger 5).1.2 ∧
      (ToLogger plainLogger 0).1.2 = (ToLogger casterAndLogger 5).1.2) ∧
    (ToLogger plainLogger 0).1.2 = true ∧
    (ToLogger casterAndLogger 5).2 = 5 :=
  ⟨direct_check_only.2 7 3 Logger (.ToGoLogger :: .ToLeveledLogger :: Logger)
      noConversion noConversion (fun s => (innerLogger, s + 1))
      (fun s => (innerLeveled, s + 1)) 0 5
      (fun m h1 h2 => by simp [h1, h2]),
   ((direct_check_only.1 plainLogger 0).2.2.1).2 ⟨by decide, by decide⟩,
   (direct_check_only.1 casterAndLogger 5).2.2.2.2.2⟩

/-! ## Composite loggers (C8) -/

/-- C8: a value that directly implements `Logger` gets `ok = true` from
`ToGoLogger`, `ToLeveledLogger` and `ToLogger`; nothing is assumed about its
casters. -/
theorem Logger_succeeds_everywhere {σ : Type} (v : Value σ) (s : σ)
    (h : implements v Logger = true) :
    (ToGoLogger v s).1.2 = true ∧ (ToLeveledLogger v s).1.2 = true ∧
    (ToLogger v s).1.2 = true := by
  have hb := (implements_Logger v).1 h
  refine ⟨(ToGoLogger_ok_iff v s).2 (Or.inr hb.1),
    (ToLeveledLogger_ok_iff v s).2 (Or.inr hb.2), ?_⟩
  simp [ToLogger, typeAssert_flag, h]

/-- C8 at concrete values: one composite logger without casters and one
with both casters. -/
theorem Logger_succeeds_everywhere_witness :
    implements plainLogger Logger = true ∧
    implements plainLogger GoLoggerCaster = false ∧
    ((ToGoLogger plainLogger 0).1.2 = true ∧ (ToLeveledLogger plainLogger 0).1.2 = true ∧
      (ToLogger plainLogger 0).1.2 = true) ∧
    implements casterAndLogger Logger = true ∧
    implements casterAndLogger GoLoggerCaster = true ∧
    ((ToGoLogger casterAndLogger 0).1.2 = true ∧
      (ToLeveledLogger casterAndLogger 0).1.2 = true ∧
      (ToLogger casterAndLogger 0).1.2 = true) :=
  ⟨by decide, by decide, Logger_succeeds_everywhere plainLogger 0 (by decide),
   by decide, by decide, Logger_succeeds_everywhere casterAndLogger 0 (by decide)⟩

/-! ## StringerFunc (C9) -/

/-- C9: no caching. One call of `String` on `StringerFunc(f)` is one
invocation of `f`: it returns what `f` returns and leaves the state `f`
leaves. For every `f`, instrumented with a counter, and every `N`, `N` calls
of `String` in sequence leave the counter exactly `N` higher, return `N`
strings, and the strings and the final state are those of `N` successive
invocations of `f`. The same count holds for any `f` that increments a
counter kept in its own state. -/
theorem String_no_caching {σ : Type} (f : StringerFunc σ) (N : Nat) (s : σ) :
    StringerFunc.String f s = f s ∧
    (∀ c : Nat, callStringN (counting f) N (s, c) =
      ((invokeN f N s).1, ((invokeN f N s).2, c + N))) ∧
    callStringN f N s = invokeN f N s ∧
    (callStringN f N s).1.length = N ∧
    (∀ ctr : σ → Nat, (∀ t, ctr (f t).2 = ctr t + 1) →
      ctr (callStringN f N s).2 = ctr s + N) := by
  refine ⟨rfl, fun c => ?_, callStringN_eq_invokeN f N s, ?_, fun ctr h => ?_⟩
  · rw [callStringN_eq_invokeN, invokeN_counting]
  · rw [callStringN_eq_invokeN, invokeN_length]
  · rw [callStringN_eq_invokeN, invokeN_counter f ctr h]

/-- C9 at a concrete function: `firstThenLater` counts its own invocations.
Three calls of `String` return the three successive answers, not three
copies of the first one, and both counters end three higher. -/
theorem String_no_caching_witness :
    callStringN (counting firstThenLater) 3 (0, 10) =
      (["first", "later", "later"], (3, 13)) ∧
    callStringN firstThenLater 3 0 = (["first", "later", "later"], 3) ∧
    id (callStringN firstThenLater 3 0).2 = id 0 + 3 :=
  ⟨(String_no_caching firstThenLater 3 0).2.1 10,
   (String_no_caching firstThenLater 3 0).2.2.1,
   (String_no_caching firstThenLater 3 0).2.2.2.2 id (fun _ => rfl)⟩

/-! ## The sentinels as bounds (C10) -/

/-- C10: every named severity lies between the sentinels,
MINLEVEL ≤ L ≤ MAXLEVEL for L among DEBUG, INFO, WARN, ERROR, FATAL, PANIC. -/
theorem sentinels_bound_named_levels (L : LogLevel) (h : L ∈ namedLevels) :
    MINLEVEL ≤ L ∧ L ≤ MAXLEVEL := by
  simp only [namedLevels, List.mem_cons, List.mem_singleton, List.not_mem_nil,
    or_false] at h
  rcases h with rfl | rfl | rfl | rfl | rfl | rfl <;>
    simp [MINLEVEL, MAXLEVEL, DEBUG, INFO, WARN, ERROR, FATAL, PANIC, iota]

/-- C10 at WARN. -/
theorem sentinels_bound_named_levels_witness :
    WARN ∈ namedLevels ∧ MINLEVEL ≤ WARN ∧ WARN ≤ MAXLEVEL :=
  ⟨by simp [namedLevels], sentinels_bound_named_levels WARN (by simp [namedLevels])⟩

/-! ## The success flag and the view (C12) -/

/-- C12: the `ok` of `ToGoLogger` and of `ToLeveledLogger` is a function of
the method set of `v` alone: two values that are both nil or both not, with
the same method set, get the same `ok`, whatever their conversions return
and in whatever states. A caster whose conversion returns nil gets nil with
`ok = true` from `ToGoLogger` (and likewise from `ToLeveledLogger`), so
`ok = true` does not make the view non-nil. For `ToGoLoggerModifier`,
`ToLeveledLoggerModifier` and `ToLogger`, `ok = true` implies that the view
is `v` itself. -/
theorem ok_depends_on_method_set_only {σ : Type} :
    (∀ (v w : Value σ) (s t : σ), v.isNil = w.isNil →
      (∀ m, m ∈ v.methodSet ↔ m ∈ w.methodSet) →
      (ToGoLogger v s).1.2 = (ToGoLogger w t).1.2 ∧
      (ToLeveledLogger v s).1.2 = (ToLeveledLogger w t).1.2) ∧
    (ToGoLogger nilCaster 0 = ((Value.nil, true), 0) ∧
      ToLeveledLogger nilLeveledCaster 0 = ((Value.nil, true), 0)) ∧
    (∀ (v : Value σ) (s : σ),
      ((ToGoLoggerModifier v s).1.2 = true → (ToGoLoggerModifier v s).1.1 = v) ∧
      ((ToLeveledLoggerModifier v s).1.2 = true →
        (ToLeveledLoggerModifier v s).1.1 = v) ∧
      ((ToLogger v s).1.2 = true → (ToLogger v s).1.1 = v)) := by
  refine ⟨fun v w s t hn hm => ?_, ⟨rfl, rfl⟩, fun v s => ⟨?_, ?_, ?_⟩⟩
  · constructor
    · rw [Bool.eq_iff_iff, ToGoLogger_ok_iff, ToGoLogger_ok_iff,
        implements_of_same_methods v w _ hn hm, implements_of_same_methods v w _ hn hm]
    · rw [Bool.eq_iff_iff, ToLeveledLogger_ok_iff, ToLeveledLogger_ok_iff,
        implements_of_same_methods v w _ hn hm, implements_of_same_methods v w _ hn hm]
  · exact typeAssert_view_of_ok v _
  · exact typeAssert_view_of_ok v _
  · exact typeAssert_view_of_ok v _

/-- C12 at concrete values: `nilCaster` and `goWrapper` have the same method
set and conversions with different results; both get `ok = true`, the first
with a nil view. `ToLogger` on `plainLogger` succeeds with `plainLogger`
itself as the view. -/
theorem ok_depends_on_method_set_only_witness :
    ((ToGoLogger nilCaster 0).1.2 = (ToGoLogger goWrapper 4).1.2 ∧
      (ToLeveledLogger nilCaster 0).1.2 = (ToLeveledLogger goWrapper 4).1.2) ∧
    (ToGoLogger nilCaster 0).1 = (Value.nil, true) ∧
    (ToGoLogger goWrapper 4).1 = (innerLogger, true) ∧
    (ToLogger plainLogger 0).1.2 = true ∧
    (ToLogger plainLogger 0).1.1 = plainLogger :=
  ⟨ok_depends_on_method_set_only.1 nilCaster goWrapper 0 4 rfl (fun _ => Iff.rfl),
   rfl, rfl, rfl,
   (ok_depends_on_method_set_only.2.2 plainLogger 0).2.2 rfl⟩

/-! ## The ordinals of the levels (C13) -/

/-- C13: the ordinals are DEBUG = 0, MINLEVEL = 0, INFO = 2, WARN = 3,
ERROR = 4, FATAL = 5, PANIC = 6, MAXLEVEL = 6. The ordinal 1 lies between
MINLEVEL and MAXLEVEL and is none of the named severities. -/
theorem level_ordinals :
    DEBUG = 0 ∧ MINLEVEL = 0 ∧ INFO = 2 ∧ WARN = 3 ∧ ERROR = 4 ∧ FATAL = 5 ∧
    PANIC = 6 ∧ MAXLEVEL = 6 ∧
    MINLEVEL ≤ 1 ∧ 1 ≤ MAXLEVEL ∧ (1 : LogLevel) ∉ namedLevels := by
  simp [namedLevels, DEBUG, MINLEVEL, INFO, WARN, ERROR, FATAL, PANIC, MAXLEVEL, iota]

/-! ## ToLogger against ToGoLogger and ToLeveledLogger (C14) -/

/-- C14: if `ToLogger` succeeds on `v`, then `ToGoLogger` and
`ToLeveledLogger` succeed on `v`, in any states. The converse fails:
`bothCastersOnly`, whose only methods are the two conversions, gets
`ok = true` from `ToGoLogger` and from `ToLeveledLogger`, and nil with
`ok = false` from `ToLogger`. -/
theorem ToLogger_implies_both_not_conversely {σ : Type} :
    (∀ (v : Value σ) (s t u : σ), (ToLogger v s).1.2 = true →
      (ToGoLogger v t).1.2 = true ∧ (ToLeveledLogger v u).1.2 = true) ∧
    ((∀ m, m ∈ bothCastersOnly.methodSet ↔
        m = Method.ToGoLogger ∨ m = Method.ToLeveledLogger) ∧
      (ToGoLogger bothCastersOnly 0).1.2 = true ∧
      (ToLeveledLogger bothCastersOnly 0).1.2 = true ∧
      ToLogger bothCastersOnly 0 = ((Value.nil, false), 0)) := by
  refine ⟨fun v s t u h => ?_, fun m => ?_, rfl, rfl, rfl⟩
  · have hl : implements v Logger = true := by
      rw [← typeAssert_flag]
      exact h
    have hb := (implements_Logger v).1 hl
    exact ⟨(ToGoLogger_ok_iff v t).2 (Or.inr hb.1),
      (ToLeveledLogger_ok_iff v u).2 (Or.inr hb.2)⟩
  · simp [bothCastersOnly, Value.methodSet]

/-- C14 at a concrete value: `ToLogger` succeeds on `casterAndLogger`, and so
do `ToGoLogger` and `ToLeveledLogger`. -/
theorem ToLogger_implies_both_not_conversely_witness :
    (ToLogger casterAndLogger 0).1.2 = true ∧
    (ToGoLogger casterAndLogger 1).1.2 = true ∧
    (ToLeveledLogger casterAndLogger 2).1.2 = true :=
  ⟨rfl, ToLogger_implies_both_not_conversely.1 casterAndLogger 0 1 2 rfl⟩

/-! ## Single-step dispatch (C11) -/

/-- C11: discovery is single-step dispatch. For every value `v` of the
recording embedding and every record `t`: `ToGoLogger` extends the record by
exactly the one call of the `ToGoLogger` conversion of `v` if `v` implements
`GoLoggerCaster`, and leaves it as it is otherwise; likewise
`ToLeveledLogger`; the three functions without a caster leave the record as
it is. On the caster branch the view is the conversion result itself, not
cast again. For each of the five functions, every call added to the record
is a conversion of `v`; none is a logging or modifier method. -/
theorem discovery_single_step (v : Value Trace) (t : Trace) (h : Recording v) :
    (ToGoLogger v t).2 =
      t ++ (if implements v GoLoggerCaster = true
            then [(v.ident, Method.ToGoLogger)] else []) ∧
    (ToLeveledLogger v t).2 =
      t ++ (if implements v LeveledLoggerCaster = true
            then [(v.ident, Method.ToLeveledLogger)] else []) ∧
    (ToGoLoggerModifier v t).2 = t ∧ (ToLeveledLoggerModifier v t).2 = t ∧
    (ToLogger v t).2 = t ∧
    (implements v GoLoggerCaster = true →
      (ToGoLogger v t).1.1 = (v.callToGoLogger t).1) ∧
    (implements v LeveledLoggerCaster = true →
      (ToLeveledLogger v t).1.1 = (v.callToLeveledLogger t).1) ∧
    (∀ F ∈ discoveryFunctions, ∀ c ∈ ((F v t).2).drop t.length,
      (c = (v.ident, Method.ToGoLogger) ∨ c = (v.ident, Method.ToLeveledLogger)) ∧
      c.2 ∉ loggingAndModifierMethods) := by
  have hG : (ToGoLogger v t).2 =
      t ++ (if implements v GoLoggerCaster = true
            then [(v.ident, Method.ToGoLogger)] else []) := by
    by_cases hc : implements v GoLoggerCaster = true
    · rw [ToGoLogger_of_caster v t hc, if_pos hc]
      exact recording_callToGoLogger v t h hc
    · rw [ToGoLogger_of_no_caster v t (by simpa using hc), if_neg hc]
      simp
  have hL : (ToLeveledLogger v t).2 =
      t ++ (if implements v LeveledLoggerCaster = true
            then [(v.ident, Method.ToLeveledLogger)] else []) := by
    by_cases hc : implements v LeveledLoggerCaster = true
    · rw [ToLeveledLogger_of_caster v t hc, if_pos hc]
      exact recording_callToLeveledLogger v t h hc
    · rw [ToLeveledLogger_of_no_caster v t (by simpa using hc), if_neg hc]
      simp
  refine ⟨hG, hL, rfl, rfl, rfl, fun hc => ?_, fun hc => ?_, ?_⟩
  · rw [ToGoLogger_of_caster v t hc]
  · rw [ToLeveledLogger_of_caster v t hc]
  · intro F hF c hc
    simp only [discoveryFunctions, List.mem_cons, List.mem_singleton,
      List.not_mem_nil, or_false] at hF
    rcases hF with rfl | rfl | rfl | rfl | rfl
    · rw [hG, List.drop_left] at hc
      split at hc
      · rw [List.mem_singleton] at hc
        subst hc
        exact ⟨Or.inl rfl, show Method.ToGoLogger ∉ loggingAndModifierMethods by decide⟩
      · simp at hc
    · simp [ToGoLoggerModifier] at hc
    · rw [hL, List.drop_left] at hc
      split at hc
      · rw [List.mem_singleton] at hc
        subst hc
        exact ⟨Or.inr rfl, show Method.ToLeveledLogger ∉ loggingAndModifierMethods by decide⟩
      · simp at hc
    · simp [ToLeveledLoggerModifier] at hc
    · simp [ToLogger] at hc

/-- C11 at concrete values: `recOuter` has only `ToGoLogger`, which hands out
`recMid`, itself a caster. `ToGoLogger recOuter` records the one conversion
call of `recOuter` and returns `recMid`, not what `recMid` would convert to;
`ToLogger recOuter` records nothing. A second cast, or a `Print` on the
view, would have shown in the record. -/
theorem discovery_single_step_witness :
    Recording recOuter ∧
    (ToGoLogger recOuter []).2 = [(13, Method.ToGoLogger)] ∧
    (ToGoLogger recOuter []).1.1 = recMid ∧
    (ToLogger recOuter []).2 = [] ∧
    (ToGoLogger recMid (ToGoLogger recOuter []).2).2 =
      [(13, Method.ToGoLogger), (12, Method.ToGoLogger)] ∧
    recordCall recMid Method.Print (ToGoLogger recOuter []).2 =
      [(13, Method.ToGoLogger), (12, Method.Print)] := by
  have hr : Recording recOuter :=
    recording_recorded _ _ _ _
      (recording_recorded _ _ _ _ (recording_recorded _ _ _ _ .nil .nil) .nil) .nil
  have hs := discovery_single_step recOuter [] hr
  refine ⟨hr, ?_, ?_, hs.2.2.2.2.1, rfl, rfl⟩
  · exact hs.1
  · exact hs.2.2.2.2.2.1 (by decide)

end Logif
